import Mathlib

/-!
Shallow embedding of the library-management system's transaction core
(models/book.py, models/user.py, models/borrow.py).

Modelling conventions:
* Cassandra tables are association lists from primary key to row; INSERT and
  UPDATE have upsert semantics (an UPDATE on an absent key creates a row whose
  unmentioned columns are null), so every non-key column is an `Option`.
* UUIDs are modelled as `Nat` drawn from a `nextUid` counter in the state;
  `datetime.now(timezone.utc)` is modelled by a `time : Nat` clock that each
  operation consuming a timestamp advances by one (serial execution).
* A `wfail : Option Nat` argument injects a storage exception into the n-th
  write statement of an operation's fan-out (counting from 0); `none` means
  every write statement succeeds.  A statement that would bind a null value
  into a primary-key position raises regardless of `wfail`, as the driver does.
* Python's `except` blocks that convert exceptions into result values are
  modelled by returning the failure result together with the partially
  written state; `create_user`'s re-raise is modelled by `Except.error`.
-/

namespace LibrarySystem

/-! ## Association-list table primitives -/

/-- Lookup by primary key: first binding wins. -/
def alookup {α β : Type} [DecidableEq α] (k : α) : List (α × β) → Option β
  | [] => none
  | (k', v) :: rest => if k' = k then some v else alookup k rest

/-- Remove every binding of key `k`. -/
def aerase {α β : Type} [DecidableEq α] (k : α) : List (α × β) → List (α × β)
  | [] => []
  | (k', v) :: rest => if k' = k then aerase k rest else (k', v) :: aerase k rest

/-- Cassandra INSERT: upsert the row stored under `k`. -/
def aupsert {α β : Type} [DecidableEq α] (k : α) (v : β) (l : List (α × β)) :
    List (α × β) :=
  (k, v) :: aerase k l

/-- Cassandra UPDATE of some columns: modify the row under `k` with `f` when it
exists, otherwise create the row `dflt` whose unmentioned columns are null. -/
def aupdate {α β : Type} [DecidableEq α] (k : α) (f : β → β) (dflt : β)
    (l : List (α × β)) : List (α × β) :=
  match alookup k l with
  | some v => aupsert k (f v) l
  | none => aupsert k dflt l

/-! ## Rows of the eight tables -/

/-- Row of `books_by_id` (key: isbn). -/
structure BookRow where
  title : Option String
  author : Option String
  category : Option String
  publisher : Option String
  publication_year : Option Int
  total_copies : Option Int
  available_copies : Option Int
  description : Option String
deriving Repr, DecidableEq

/-- Row of `books_by_category` (key: (category, title, isbn)). -/
structure BookCatRow where
  author : Option String
  publication_year : Option Int
  available_copies : Option Int
  total_copies : Option Int
deriving Repr, DecidableEq

/-- Row of `books_by_author` (key: (author, title, isbn)). -/
structure BookAuthorRow where
  category : Option String
  publication_year : Option Int
  available_copies : Option Int
  total_copies : Option Int
deriving Repr, DecidableEq

/-- Row of `users_by_id` (key: user_id). -/
structure UserRow where
  email : Option String
  first_name : Option String
  last_name : Option String
  phone : Option String
  address : Option String
  registration_date : Option Nat
  total_borrows : Option Int
  active_borrows : Option Int
deriving Repr, DecidableEq

/-- Row of `users_by_email` (key: email). -/
structure UserEmailRow where
  user_id : Option Nat
  first_name : Option String
  last_name : Option String
  registration_date : Option Nat
deriving Repr, DecidableEq

/-- Row of `borrows_by_user` (key: (user_id, borrow_date, isbn)). -/
structure BorrowUserRow where
  book_title : Option String
  status : Option String
  due_date : Option Nat
  return_date : Option Nat
deriving Repr, DecidableEq

/-- Row of `borrows_by_book` (key: (isbn, borrow_date, user_id)). -/
structure BorrowBookRow where
  user_name : Option String
  status : Option String
  due_date : Option Nat
  return_date : Option Nat
  book_title : Option String
deriving Repr, DecidableEq

/-- Row of `active_borrows_by_user` (key: (user_id, borrow_date, isbn)).
The key columns are mandatory, so they are not optional here. -/
structure ActiveRow where
  user_id : Nat
  borrow_date : Nat
  isbn : String
  book_title : Option String
  due_date : Option Nat
deriving Repr, DecidableEq

/-- The whole keyspace, plus the uuid source and the clock. -/
structure DB where
  books_by_id : List (String × BookRow)
  books_by_category : List ((String × String × String) × BookCatRow)
  books_by_author : List ((String × String × String) × BookAuthorRow)
  users_by_id : List (Nat × UserRow)
  users_by_email : List (String × UserEmailRow)
  borrows_by_user : List ((Nat × Nat × String) × BorrowUserRow)
  borrows_by_book : List ((String × Nat × Nat) × BorrowBookRow)
  active_borrows_by_user : List ActiveRow
  time : Nat
  nextUid : Nat
deriving Repr, DecidableEq

/-! ## Statement-level write helpers -/

/-- `UPDATE books_by_id SET available_copies = ? WHERE isbn = ?`. -/
def updBookAvail (isbn : String) (v : Int) (t : List (String × BookRow)) :
    List (String × BookRow) :=
  aupdate isbn (fun r => { r with available_copies := some v })
    ⟨none, none, none, none, none, none, some v, none⟩ t

/-- `UPDATE books_by_category SET available_copies = ? WHERE category = ? AND title = ? AND isbn = ?`. -/
def updCatAvail (k : String × String × String) (v : Int)
    (t : List ((String × String × String) × BookCatRow)) :
    List ((String × String × String) × BookCatRow) :=
  aupdate k (fun r => { r with available_copies := some v }) ⟨none, none, some v, none⟩ t

/-- `UPDATE books_by_author SET available_copies = ? WHERE author = ? AND title = ? AND isbn = ?`. -/
def updAuthorAvail (k : String × String × String) (v : Int)
    (t : List ((String × String × String) × BookAuthorRow)) :
    List ((String × String × String) × BookAuthorRow) :=
  aupdate k (fun r => { r with available_copies := some v }) ⟨none, none, some v, none⟩ t

/-- `UPDATE users_by_id SET total_borrows = ?, active_borrows = ? WHERE user_id = ?`. -/
def updUserCounts (uid : Nat) (tb ab : Int) (t : List (Nat × UserRow)) :
    List (Nat × UserRow) :=
  aupdate uid (fun r => { r with total_borrows := some tb, active_borrows := some ab })
    ⟨none, none, none, none, none, none, some tb, some ab⟩ t

/-- `UPDATE borrows_by_user SET status = ?, return_date = ? WHERE user_id = ? AND borrow_date = ? AND isbn = ?`
with the values `("RETURNED", now)`. -/
def updBorrowUserReturn (k : Nat × Nat × String) (now : Nat)
    (t : List ((Nat × Nat × String) × BorrowUserRow)) :
    List ((Nat × Nat × String) × BorrowUserRow) :=
  aupdate k (fun r => { r with status := some "RETURNED", return_date := some now })
    ⟨none, some "RETURNED", none, some now⟩ t

/-- `UPDATE borrows_by_book SET status = ?, return_date = ? WHERE isbn = ? AND borrow_date = ? AND user_id = ?`
with the values `("RETURNED", now)`. -/
def updBorrowBookReturn (k : String × Nat × Nat) (now : Nat)
    (t : List ((String × Nat × Nat) × BorrowBookRow)) :
    List ((String × Nat × Nat) × BorrowBookRow) :=
  aupdate k (fun r => { r with status := some "RETURNED", return_date := some now })
    ⟨none, some "RETURNED", none, some now, none⟩ t

/-- `DELETE FROM active_borrows_by_user WHERE user_id = ? AND borrow_date = ? AND isbn = ?`. -/
def delActive (u bd : Nat) (isbn : String) : List ActiveRow → List ActiveRow
  | [] => []
  | r :: rest =>
    if r.user_id = u ∧ r.borrow_date = bd ∧ r.isbn = isbn then delActive u bd isbn rest
    else r :: delActive u bd isbn rest

/-- `INSERT INTO active_borrows_by_user ...`: upsert on the full primary key. -/
def insActive (a : ActiveRow) (l : List ActiveRow) : List ActiveRow :=
  a :: delActive a.user_id a.borrow_date a.isbn l

/-- The rows of user `u`'s partition of `active_borrows_by_user`, in table order
(`SELECT ... FROM active_borrows_by_user WHERE user_id = ?`). -/
def activePartition (u : Nat) : List ActiveRow → List ActiveRow
  | [] => []
  | r :: rest =>
    if r.user_id = u then r :: activePartition u rest else activePartition u rest

/-- The Python loop `for r in active_rows: if r.isbn == isbn: match = r; break`. -/
def findIsbn (isbn : String) : List ActiveRow → Option ActiveRow
  | [] => none
  | r :: rest => if r.isbn = isbn then some r else findIsbn isbn rest

/-! ## Operations -/

/-- Result type of `borrow_book` / `return_book` (`BorrowResult` dataclass). -/
structure BorrowResult where
  ok : Bool
  message : String
deriving Repr, DecidableEq

/-- The `Book` dataclass handed to `BookRepository.add_book`. -/
structure Book where
  isbn : String
  title : String
  author : String
  category : String
  publisher : String
  publication_year : Int
  total_copies : Int
  available_copies : Int
  description : String
deriving Repr, DecidableEq

/-- How Python renders an optional string inside an f-string
(`None` prints as the four-letter string "None"). -/
def pyStr : Option String → String
  | some s => s
  | none => "None"

/-- `UserRepository.create_user` (user.py lines 49-67).  Writes a fresh row into
`users_by_id` and `users_by_email`; an exception from either statement is
logged and RE-RAISED (`Except.error`), not converted to a result value.
There is no duplicate-email check.  The error value carries the state as
written so far. -/
def create_user (st : DB) (email first_name last_name phone address : String)
    (wfail : Option Nat) : Except (String × DB) (Nat × DB) :=
  let uid := st.nextUid
  let reg := st.time
  if wfail = some 0 then
    Except.error ("create_user failed", { st with time := st.time + 1, nextUid := st.nextUid + 1 })
  else
    let row : UserRow :=
      ⟨some email, some first_name, some last_name, some phone, some address,
        some reg, some 0, some 0⟩
    let st0 := { st with users_by_id := aupsert uid row st.users_by_id }
    if wfail = some 1 then
      Except.error ("create_user failed", { st0 with time := st.time + 1, nextUid := st.nextUid + 1 })
    else
      let erow : UserEmailRow := ⟨some uid, some first_name, some last_name, some reg⟩
      let st1 := { st0 with users_by_email := aupsert email erow st0.users_by_email }
      Except.ok (uid, { st1 with time := st.time + 1, nextUid := st.nextUid + 1 })

/-- `BookRepository.add_book` (book.py lines 55-77): three inserts, any
exception is caught and converted to `false`. -/
def add_book (st : DB) (b : Book) (wfail : Option Nat) : Bool × DB :=
  if wfail = some 0 then (false, st)
  else
    let row : BookRow :=
      ⟨some b.title, some b.author, some b.category, some b.publisher,
        some b.publication_year, some b.total_copies, some b.available_copies,
        some b.description⟩
    let st0 := { st with books_by_id := aupsert b.isbn row st.books_by_id }
    if wfail = some 1 then (false, st0)
    else
      let crow : BookCatRow :=
        ⟨some b.author, some b.publication_year, some b.available_copies, some b.total_copies⟩
      let st1 := { st0 with books_by_category := aupsert (b.category, b.title, b.isbn) crow st0.books_by_category }
      if wfail = some 2 then (false, st1)
      else
        let arow : BookAuthorRow :=
          ⟨some b.category, some b.publication_year, some b.available_copies, some b.total_copies⟩
        let st2 := { st1 with books_by_author := aupsert (b.author, b.title, b.isbn) arow st1.books_by_author }
        (true, st2)

/-- `BorrowRepository.borrow_book` (borrow.py lines 95-139).
Validations in source order, then the seven-statement write fan-out inside the
`try` block; statements 1 and 2 raise when the category/title resp.
author/title read from `books_by_id` is null, since a null cannot be bound
into a primary-key position.  The exception message `Erreur emprunt: ...` is
modelled without its cause text. -/
def borrow_book (st : DB) (user_id : Nat) (isbn : String) (loan_days : Nat)
    (wfail : Option Nat) : BorrowResult × DB :=
  match alookup isbn st.books_by_id with
  | none => (⟨false, "Livre introuvable"⟩, st)
  | some book =>
    match book.available_copies with
    | none => (⟨false, "Aucune copie disponible"⟩, st)
    | some avail =>
      if avail ≤ 0 then (⟨false, "Aucune copie disponible"⟩, st)
      else
        match alookup user_id st.users_by_id with
        | none => (⟨false, "Utilisateur introuvable"⟩, st)
        | some user =>
          let user_name := (pyStr user.first_name ++ " " ++ pyStr user.last_name).trim
          let now := st.time
          let due := now + loan_days
          let new_avail := avail - 1
          if wfail = some 0 then
            (⟨false, "Erreur emprunt"⟩, { st with time := st.time + 1 })
          else
            let st0 := { st with books_by_id := updBookAvail isbn new_avail st.books_by_id }
            if wfail = some 1 ∨ book.category = none ∨ book.title = none then
              (⟨false, "Erreur emprunt"⟩, { st0 with time := st.time + 1 })
            else
              let t1 := updCatAvail (book.category.getD "", book.title.getD "", isbn)
                new_avail st0.books_by_category
              let st1 := { st0 with books_by_category := t1 }
              if wfail = some 2 ∨ book.author = none ∨ book.title = none then
                (⟨false, "Erreur emprunt"⟩, { st1 with time := st.time + 1 })
              else
                let t2 := updAuthorAvail (book.author.getD "", book.title.getD "", isbn)
                  new_avail st1.books_by_author
                let st2 := { st1 with books_by_author := t2 }
                if wfail = some 3 then
                  (⟨false, "Erreur emprunt"⟩, { st2 with time := st.time + 1 })
                else
                  let hrow : BorrowUserRow := ⟨book.title, some "BORROWED", some due, none⟩
                  let st3 := { st2 with borrows_by_user := aupsert (user_id, now, isbn) hrow st2.borrows_by_user }
                  if wfail = some 4 then
                    (⟨false, "Erreur emprunt"⟩, { st3 with time := st.time + 1 })
                  else
                    let brow : BorrowBookRow :=
                      ⟨some user_name, some "BORROWED", some due, none, book.title⟩
                    let st4 := { st3 with borrows_by_book := aupsert (isbn, now, user_id) brow st3.borrows_by_book }
                    if wfail = some 5 then
                      (⟨false, "Erreur emprunt"⟩, { st4 with time := st.time + 1 })
                    else
                      let arow : ActiveRow := ⟨user_id, now, isbn, book.title, some due⟩
                      let st5 := { st4 with active_borrows_by_user := insActive arow st4.active_borrows_by_user }
                      if wfail = some 6 then
                        (⟨false, "Erreur emprunt"⟩, { st5 with time := st.time + 1 })
                      else
                        let total_b := user.total_borrows.getD 0 + 1
                        let active_b := user.active_borrows.getD 0 + 1
                        let st6 := { st5 with users_by_id := updUserCounts user_id total_b active_b st5.users_by_id }
                        (⟨true, "Emprunt effectué"⟩, { st6 with time := st.time + 1 })

/-- `new_avail = int(book.available_copies or 0) + 1`, clamped by
`total_copies` when that is not null (borrow.py lines 168-171). -/
def returnNewAvail (book : BookRow) : Int :=
  match book.total_copies with
  | some t => min (book.available_copies.getD 0 + 1) t
  | none => book.available_copies.getD 0 + 1

/-- `BorrowRepository.return_book` (borrow.py lines 141-194).
Scan of the active partition, two existence checks, then the seven-statement
write fan-out inside the `try` block (same null-key raise conditions on
statements 1 and 2 as in `borrow_book`). -/
def return_book (st : DB) (user_id : Nat) (isbn : String) (wfail : Option Nat) :
    BorrowResult × DB :=
  match findIsbn isbn (activePartition user_id st.active_borrows_by_user) with
  | none => (⟨false, "Aucun emprunt actif trouvé pour ce livre"⟩, st)
  | some m =>
    match alookup isbn st.books_by_id with
    | none => (⟨false, "Livre introuvable (books_by_id)"⟩, st)
    | some book =>
      match alookup user_id st.users_by_id with
      | none => (⟨false, "Utilisateur introuvable"⟩, st)
      | some user =>
        let borrow_date := m.borrow_date
        let now := st.time
        let new_avail := returnNewAvail book
        if wfail = some 0 then
          (⟨false, "Erreur retour"⟩, { st with time := st.time + 1 })
        else
          let st0 := { st with books_by_id := updBookAvail isbn new_avail st.books_by_id }
          if wfail = some 1 ∨ book.category = none ∨ book.title = none then
            (⟨false, "Erreur retour"⟩, { st0 with time := st.time + 1 })
          else
            let t1 := updCatAvail (book.category.getD "", book.title.getD "", isbn)
              new_avail st0.books_by_category
            let st1 := { st0 with books_by_category := t1 }
            if wfail = some 2 ∨ book.author = none ∨ book.title = none then
              (⟨false, "Erreur retour"⟩, { st1 with time := st.time + 1 })
            else
              let t2 := updAuthorAvail (book.author.getD "", book.title.getD "", isbn)
                new_avail st1.books_by_author
              let st2 := { st1 with books_by_author := t2 }
              if wfail = some 3 then
                (⟨false, "Erreur retour"⟩, { st2 with time := st.time + 1 })
              else
                let st3 := { st2 with borrows_by_user := updBorrowUserReturn (user_id, borrow_date, isbn) now st2.borrows_by_user }
                if wfail = some 4 then
                  (⟨false, "Erreur retour"⟩, { st3 with time := st.time + 1 })
                else
                  let st4 := { st3 with borrows_by_book := updBorrowBookReturn (isbn, borrow_date, user_id) now st3.borrows_by_book }
                  if wfail = some 5 then
                    (⟨false, "Erreur retour"⟩, { st4 with time := st.time + 1 })
                  else
                    let st5 := { st4 with active_borrows_by_user := delActive user_id borrow_date isbn st4.active_borrows_by_user }
                    if wfail = some 6 then
                      (⟨false, "Erreur retour"⟩, { st5 with time := st.time + 1 })
                    else
                      let total_b := user.total_borrows.getD 0
                      let active_b := max 0 (user.active_borrows.getD 0 - 1)
                      let st6 := { st5 with users_by_id := updUserCounts user_id total_b active_b st5.users_by_id }
                      (⟨true, "Livre retourné"⟩, { st6 with time := st.time + 1 })

/-! ## Derived observers of the active-loan partition -/

/-- Number of rows in user `u`'s partition of `active_borrows_by_user`. -/
def activeCount (u : Nat) : List ActiveRow → Nat
  | [] => 0
  | r :: rest => (if r.user_id = u then 1 else 0) + activeCount u rest

/-- Number of rows of user `u` carrying the given isbn. -/
def isbnCount (u : Nat) (isbn : String) : List ActiveRow → Nat
  | [] => 0
  | r :: rest => (if r.user_id = u ∧ r.isbn = isbn then 1 else 0) + isbnCount u isbn rest

/-- Number of rows with the full primary key `(u, bd, isbn)`. -/
def keyCount (u bd : Nat) (isbn : String) : List ActiveRow → Nat
  | [] => 0
  | r :: rest =>
    (if r.user_id = u ∧ r.borrow_date = bd ∧ r.isbn = isbn then 1 else 0) +
      keyCount u bd isbn rest

/-- Well-formedness: the primary keys of the active table are pairwise distinct
(always true of a real Cassandra table). -/
def noDupKeys : List ActiveRow → Bool
  | [] => true
  | r :: rest =>
    rest.all (fun x =>
      decide (¬(x.user_id = r.user_id ∧ x.borrow_date = r.borrow_date ∧ x.isbn = r.isbn))) &&
      noDupKeys rest

/-- Well-formedness: every stored borrow timestamp predates the clock
(true of any state produced by serial execution, since the clock advances
past each timestamp it hands out). -/
def freshActive (st : DB) : Bool :=
  st.active_borrows_by_user.all (fun r => decide (r.borrow_date < st.time))

/-! ## Characterization of the successful runs -/

/-- The state after a successful `borrow_book` run that read `book` (with
`available_copies = some a`) and `user`. -/
def borrowFinal (st : DB) (u : Nat) (isbn : String) (d : Nat) (book : BookRow)
    (a : Int) (user : UserRow) : DB :=
  { st with
    books_by_id := updBookAvail isbn (a - 1) st.books_by_id,
    books_by_category := updCatAvail (book.category.getD "", book.title.getD "", isbn) (a - 1) st.books_by_category,
    books_by_author := updAuthorAvail (book.author.getD "", book.title.getD "", isbn) (a - 1) st.books_by_author,
    borrows_by_user := aupsert (u, st.time, isbn) ⟨book.title, some "BORROWED", some (st.time + d), none⟩ st.borrows_by_user,
    borrows_by_book := aupsert (isbn, st.time, u) ⟨some ((pyStr user.first_name ++ " " ++ pyStr user.last_name).trim), some "BORROWED", some (st.time + d), none, book.title⟩ st.borrows_by_book,
    active_borrows_by_user := insActive ⟨u, st.time, isbn, book.title, some (st.time + d)⟩ st.active_borrows_by_user,
    users_by_id := updUserCounts u (user.total_borrows.getD 0 + 1) (user.active_borrows.getD 0 + 1) st.users_by_id,
    time := st.time + 1 }

/-- The state after a successful `return_book` run that matched the active row
`m` and read `book` and `user`. -/
def returnFinal (st : DB) (u : Nat) (isbn : String) (m : ActiveRow) (book : BookRow)
    (user : UserRow) : DB :=
  { st with
    books_by_id := updBookAvail isbn (returnNewAvail book) st.books_by_id,
    books_by_category := updCatAvail (book.category.getD "", book.title.getD "", isbn) (returnNewAvail book) st.books_by_category,
    books_by_author := updAuthorAvail (book.author.getD "", book.title.getD "", isbn) (returnNewAvail book) st.books_by_author,
    borrows_by_user := updBorrowUserReturn (u, m.borrow_date, isbn) st.time st.borrows_by_user,
    borrows_by_book := updBorrowBookReturn (isbn, m.borrow_date, u) st.time st.borrows_by_book,
    active_borrows_by_user := delActive u m.borrow_date isbn st.active_borrows_by_user,
    users_by_id := updUserCounts u (user.total_borrows.getD 0) (max 0 (user.active_borrows.getD 0 - 1)) st.users_by_id,
    time := st.time + 1 }

/-! ## Serial sequences of transaction-engine operations -/

/-- One call into the borrow transaction engine. -/
inductive Op where
  | borrow (u : Nat) (isbn : String) (d : Nat) (w : Option Nat)
  | ret (u : Nat) (isbn : String) (w : Option Nat)
deriving Repr, DecidableEq

/-- Execute one operation. -/
def applyOp (st : DB) : Op → BorrowResult × DB
  | Op.borrow u i d w => borrow_book st u i d w
  | Op.ret u i w => return_book st u i w

/-- Final state of a serial run. -/
def runOps (st : DB) : List Op → DB
  | [] => st
  | op :: rest => runOps (applyOp st op).2 rest

/-- Every operation of the run reported success. -/
def allOk (st : DB) : List Op → Bool
  | [] => true
  | op :: rest => (applyOp st op).1.ok && allOk (applyOp st op).2 rest

/-! ## Invariants -/

/-- `0 ≤ available_copies ≤ total_copies` for the book stored under `isbn`
(both counters present), vacuous when the book does not exist. -/
def copiesInv (st : DB) (isbn : String) : Bool :=
  match alookup isbn st.books_by_id with
  | none => true
  | some r =>
    match r.available_copies, r.total_copies with
    | some a, some t => decide (0 ≤ a ∧ a ≤ t)
    | _, _ => false

/-- The patron's `active_borrows` counter equals the number of rows in the
patron's partition of `active_borrows_by_user`, vacuous when the patron
does not exist. -/
def counterInv (st : DB) (u : Nat) : Bool :=
  match alookup u st.users_by_id with
  | none => true
  | some r =>
    decide (r.active_borrows = some ((activeCount u st.active_borrows_by_user : Nat) : Int))

/-- Consistency of a state for patron `u`: the counter matches the partition,
timestamps predate the clock and active keys are distinct. -/
def consistentFor (st : DB) (u : Nat) : Bool :=
  counterInv st u && freshActive st && noDupKeys st.active_borrows_by_user

/-- The three denormalized book views store the same `available_copies` for
the book under `isbn`, located through the category/title/author recorded in
`books_by_id`; vacuous when the book is absent or its coordinates are null. -/
def viewsAgree (st : DB) (isbn : String) : Bool :=
  match alookup isbn st.books_by_id with
  | none => true
  | some r =>
    match r.category, r.title, r.author with
    | some c, some ti, some au =>
      (match alookup (c, ti, isbn) st.books_by_category with
       | some cr => decide (cr.available_copies = r.available_copies)
       | none => false) &&
      (match alookup (au, ti, isbn) st.books_by_author with
       | some ar => decide (ar.available_copies = r.available_copies)
       | none => false)
    | _, _, _ => true

/-- The patron id contained in a `create_user` result, `none` on a raise. -/
def createdUid : Except (String × DB) (Nat × DB) → Option Nat
  | Except.ok (uid, _) => some uid
  | Except.error _ => none

/-- The state contained in a successful `create_user` result. -/
def createdDB : Except (String × DB) (Nat × DB) → Option DB
  | Except.ok (_, st) => some st
  | Except.error _ => none

/-- Did `create_user` raise? -/
def raisedError : Except (String × DB) (Nat × DB) → Bool
  | Except.ok _ => false
  | Except.error _ => true

/-! ## Concrete states used by witnesses and counterexamples -/

/-- A small healthy state: one book `"X"` with 2 of 2 copies, one patron `7`
with zero borrows, clock at 10, next uuid 100. -/
def dbDemo : DB :=
  { books_by_id := [("X", ⟨some "Dune", some "Herbert", some "SF", some "Ace", some 1965, some 2, some 2, some ""⟩)]
    books_by_category := [(("SF", "Dune", "X"), ⟨some "Herbert", some 1965, some 2, some 2⟩)]
    books_by_author := [(("Herbert", "Dune", "X"), ⟨some "SF", some 1965, some 2, some 2⟩)]
    users_by_id := [(7, ⟨some "a@x.com", some "Ann", some "Lee", some "", some "", some 0, some 0, some 0⟩)]
    users_by_email := [("a@x.com", ⟨some 7, some "Ann", some "Lee", some 0⟩)]
    borrows_by_user := []
    borrows_by_book := []
    active_borrows_by_user := []
    time := 10
    nextUid := 100 }

/-- Entirely empty keyspace. -/
def dbEmpty : DB :=
  { books_by_id := []
    books_by_category := []
    books_by_author := []
    users_by_id := []
    users_by_email := []
    borrows_by_user := []
    borrows_by_book := []
    active_borrows_by_user := []
    time := 0
    nextUid := 5 }

/-- Book `"X"` exists with zero available copies; no patron exists. -/
def dbNoCopies : DB :=
  { dbEmpty with
    books_by_id := [("X", ⟨some "Dune", some "Herbert", some "SF", some "Ace", some 1965, some 2, some 0, some ""⟩)] }

/-- Book `"X"` exists with one available copy; no patron exists. -/
def dbNoUser : DB :=
  { dbEmpty with
    books_by_id := [("X", ⟨some "Dune", some "Herbert", some "SF", some "Ace", some 1965, some 2, some 1, some ""⟩)] }

/-- Book `"X"` exists but both copy counters are null; patron 7 exists and
holds an active loan on `"X"`. -/
def dbNullCounters : DB :=
  { dbEmpty with
    books_by_id := [("X", ⟨some "Dune", some "Herbert", some "SF", some "Ace", some 1965, none, none, some ""⟩)]
    users_by_id := [(7, ⟨some "a@x.com", some "Ann", some "Lee", some "", some "", some 0, some 1, some 1⟩)]
    active_borrows_by_user := [⟨7, 3, "X", some "Dune", some 17⟩]
    time := 10 }

/-- The email `"e@x.com"` is already taken by patron 3; the next uuid is 5. -/
def dbDupEmail : DB :=
  { dbEmpty with
    users_by_id := [(3, ⟨some "e@x.com", some "Old", some "Owner", some "", some "", some 0, some 0, some 0⟩)]
    users_by_email := [("e@x.com", ⟨some 3, some "Old", some "Owner", some 0⟩)] }

/-- State reached from `dbDemo` after patron 7 borrows `"X"` twice: two active
rows for the same isbn, zero available copies. -/
def dbDouble : DB :=
  (borrow_book (borrow_book dbDemo 7 "X" 14 none).2 7 "X" 14 none).2

/-- State reached from `dbDemo` after patron 7 borrows `"X"` once. -/
def dbSingle : DB :=
  (borrow_book dbDemo 7 "X" 14 none).2

/-- The `Book` dataclass value used by the `add_book` witness. -/
def bookDemo : Book :=
  ⟨"Y", "Leaf", "Field", "Nature", "Pub", 2001, 3, 3, "about leaves"⟩

/-! ## Lookup lemmas for the table primitives -/

theorem activeCount_cons (u : Nat) (r : ActiveRow) (rest : List ActiveRow) :
    activeCount u (r :: rest) =
      (if r.user_id = u then 1 else 0) + activeCount u rest := rfl

theorem isbnCount_cons (u : Nat) (isbn : String) (r : ActiveRow) (rest : List ActiveRow) :
    isbnCount u isbn (r :: rest) =
      (if r.user_id = u ∧ r.isbn = isbn then 1 else 0) + isbnCount u isbn rest := rfl

theorem keyCount_cons (u bd : Nat) (isbn : String) (r : ActiveRow) (rest : List ActiveRow) :
    keyCount u bd isbn (r :: rest) =
      (if r.user_id = u ∧ r.borrow_date = bd ∧ r.isbn = isbn then 1 else 0) +
        keyCount u bd isbn rest := rfl


theorem alookup_aerase_self {α β : Type} [DecidableEq α] (k : α) (l : List (α × β)) :
    alookup k (aerase k l) = none := by
  induction l with
  | nil => rfl
  | cons p rest ih =>
    obtain ⟨a, v⟩ := p
    by_cases h : a = k
    · simp [aerase, h, ih]
    · simp [aerase, alookup, h, ih]

theorem alookup_aerase_ne {α β : Type} [DecidableEq α] {k k' : α} (h : k' ≠ k)
    (l : List (α × β)) : alookup k' (aerase k l) = alookup k' l := by
  induction l with
  | nil => rfl
  | cons p rest ih =>
    obtain ⟨a, v⟩ := p
    by_cases ha : a = k
    · subst ha
      simp [aerase, alookup, Ne.symm h, ih]
    · by_cases ha' : a = k'
      · simp [aerase, alookup, ha, ha', h]
      · simp [aerase, alookup, ha, ha', ih]

theorem alookup_aupsert_self {α β : Type} [DecidableEq α] (k : α) (v : β)
    (l : List (α × β)) : alookup k (aupsert k v l) = some v := by
  simp [aupsert, alookup]

theorem alookup_aupsert_ne {α β : Type} [DecidableEq α] {k k' : α} (h : k' ≠ k)
    (v : β) (l : List (α × β)) : alookup k' (aupsert k v l) = alookup k' l := by
  simp [aupsert, alookup, Ne.symm h, alookup_aerase_ne h]

theorem alookup_aupdate_self_some {α β : Type} [DecidableEq α] {k : α} {v : β}
    {l : List (α × β)} (f : β → β) (d : β) (h : alookup k l = some v) :
    alookup k (aupdate k f d l) = some (f v) := by
  simp [aupdate, h, alookup_aupsert_self]

theorem alookup_aupdate_self_none {α β : Type} [DecidableEq α] {k : α}
    {l : List (α × β)} (f : β → β) (d : β) (h : alookup k l = none) :
    alookup k (aupdate k f d l) = some d := by
  simp [aupdate, h, alookup_aupsert_self]

theorem alookup_aupdate_ne {α β : Type} [DecidableEq α] {k k' : α} (h : k' ≠ k)
    (f : β → β) (d : β) (l : List (α × β)) :
    alookup k' (aupdate k f d l) = alookup k' l := by
  unfold aupdate
  cases alookup k l <;> simp [alookup_aupsert_ne h]

/-! ## Lemmas about the active-loan table -/

theorem delActive_eq_of_all {u bd : Nat} {isbn : String} {l : List ActiveRow}
    (h : ∀ r ∈ l, ¬(r.user_id = u ∧ r.borrow_date = bd ∧ r.isbn = isbn)) :
    delActive u bd isbn l = l := by
  induction l with
  | nil => rfl
  | cons r rest ih =>
    have hr := h r (by simp)
    simp only [delActive, if_neg hr]
    rw [ih (fun x hx => h x (by simp [hx]))]

theorem activeCount_delActive_ne {u u' bd : Nat} {isbn : String} (h : u ≠ u')
    (l : List ActiveRow) : activeCount u (delActive u' bd isbn l) = activeCount u l := by
  induction l with
  | nil => rfl
  | cons r rest ih =>
    by_cases hk : r.user_id = u' ∧ r.borrow_date = bd ∧ r.isbn = isbn
    · have hru : ¬ r.user_id = u := by
        rw [hk.1]
        exact Ne.symm h
      simp only [delActive, if_pos hk, activeCount_cons, if_neg hru]
      rw [ih]
      omega
    · simp [delActive, hk, activeCount, ih]

theorem activeCount_delActive_self (u bd : Nat) (isbn : String) (l : List ActiveRow) :
    activeCount u (delActive u bd isbn l) + keyCount u bd isbn l = activeCount u l := by
  induction l with
  | nil => rfl
  | cons r rest ih =>
    by_cases hk : r.user_id = u ∧ r.borrow_date = bd ∧ r.isbn = isbn
    · have hu : r.user_id = u := hk.1
      simp only [delActive, if_pos hk, keyCount, if_pos hk, activeCount, if_pos hu]
      omega
    · simp only [delActive, if_neg hk, keyCount, if_neg hk, activeCount]
      omega

theorem isbnCount_delActive_self (u bd : Nat) (isbn : String) (l : List ActiveRow) :
    isbnCount u isbn (delActive u bd isbn l) + keyCount u bd isbn l = isbnCount u isbn l := by
  induction l with
  | nil => rfl
  | cons r rest ih =>
    by_cases hk : r.user_id = u ∧ r.borrow_date = bd ∧ r.isbn = isbn
    · have hui : r.user_id = u ∧ r.isbn = isbn := ⟨hk.1, hk.2.2⟩
      simp only [delActive, if_pos hk, keyCount, if_pos hk, isbnCount, if_pos hui]
      omega
    · simp only [delActive, if_neg hk, keyCount, if_neg hk, isbnCount]
      omega

theorem keyCount_eq_zero_of_all {u bd : Nat} {isbn : String} {l : List ActiveRow}
    (h : ∀ r ∈ l, ¬(r.user_id = u ∧ r.borrow_date = bd ∧ r.isbn = isbn)) :
    keyCount u bd isbn l = 0 := by
  induction l with
  | nil => rfl
  | cons r rest ih =>
    have hr := h r (by simp)
    simp only [keyCount, if_neg hr]
    rw [ih (fun x hx => h x (by simp [hx]))]

theorem keyCount_eq_one_of_noDup {l : List ActiveRow} {m : ActiveRow}
    (hd : noDupKeys l = true) (hm : m ∈ l) :
    keyCount m.user_id m.borrow_date m.isbn l = 1 := by
  induction l with
  | nil => simp at hm
  | cons r rest ih =>
    simp only [noDupKeys, Bool.and_eq_true, List.all_eq_true, decide_eq_true_eq] at hd
    obtain ⟨hall, hrest⟩ := hd
    rcases List.mem_cons.mp hm with hm | hm
    · subst hm
      have hc : m.user_id = m.user_id ∧ m.borrow_date = m.borrow_date ∧ m.isbn = m.isbn :=
        ⟨rfl, rfl, rfl⟩
      rw [keyCount_cons, if_pos hc]
      have : keyCount m.user_id m.borrow_date m.isbn rest = 0 :=
        keyCount_eq_zero_of_all (fun x hx => hall x hx)
      omega
    · have hne := hall m hm
      have : ¬(r.user_id = m.user_id ∧ r.borrow_date = m.borrow_date ∧ r.isbn = m.isbn) := by
        intro ⟨h1, h2, h3⟩
        exact hne ⟨h1.symm, h2.symm, h3.symm⟩
      simp only [keyCount, if_neg this]
      rw [ih hrest hm]

theorem keyCount_pos_of_mem {l : List ActiveRow} {m : ActiveRow} (hm : m ∈ l) :
    1 ≤ keyCount m.user_id m.borrow_date m.isbn l := by
  induction l with
  | nil => simp at hm
  | cons r rest ih =>
    rcases List.mem_cons.mp hm with hm | hm
    · subst hm
      have hc : m.user_id = m.user_id ∧ m.borrow_date = m.borrow_date ∧ m.isbn = m.isbn :=
        ⟨rfl, rfl, rfl⟩
      rw [keyCount_cons, if_pos hc]
      omega
    · have := ih hm
      simp only [keyCount]
      split <;> omega

theorem activeCount_pos_of_mem {l : List ActiveRow} {m : ActiveRow} {u : Nat}
    (hm : m ∈ l) (hu : m.user_id = u) : 1 ≤ activeCount u l := by
  induction l with
  | nil => simp at hm
  | cons r rest ih =>
    rcases List.mem_cons.mp hm with hm | hm
    · subst hm
      simp only [activeCount, if_pos hu]
      omega
    · have := ih hm
      simp only [activeCount]
      split <;> omega

theorem findIsbn_activePartition_some {u : Nat} {isbn : String} {l : List ActiveRow}
    {m : ActiveRow} (h : findIsbn isbn (activePartition u l) = some m) :
    m ∈ l ∧ m.user_id = u ∧ m.isbn = isbn := by
  induction l with
  | nil => simp [activePartition, findIsbn] at h
  | cons r rest ih =>
    by_cases hu : r.user_id = u
    · by_cases hi : r.isbn = isbn
      · simp only [activePartition, if_pos hu, findIsbn, if_pos hi, Option.some.injEq] at h
        subst h
        exact ⟨by simp, hu, hi⟩
      · simp only [activePartition, if_pos hu, findIsbn, if_neg hi] at h
        obtain ⟨h1, h2, h3⟩ := ih h
        exact ⟨by simp [h1], h2, h3⟩
    · simp only [activePartition, if_neg hu] at h
      obtain ⟨h1, h2, h3⟩ := ih h
      exact ⟨by simp [h1], h2, h3⟩

theorem findIsbn_activePartition_none_iff {u : Nat} {isbn : String} {l : List ActiveRow} :
    findIsbn isbn (activePartition u l) = none ↔ isbnCount u isbn l = 0 := by
  induction l with
  | nil => simp [activePartition, findIsbn, isbnCount]
  | cons r rest ih =>
    by_cases hu : r.user_id = u
    · by_cases hi : r.isbn = isbn
      · simp [activePartition, hu, findIsbn, hi, isbnCount]
      · simp [activePartition, hu, findIsbn, hi, isbnCount, ih]
    · have : ¬(r.user_id = u ∧ r.isbn = isbn) := fun hh => hu hh.1
      simp [activePartition, hu, findIsbn, isbnCount, this, ih]

theorem keyCount_le_isbnCount (u bd : Nat) (isbn : String) (l : List ActiveRow) :
    keyCount u bd isbn l ≤ isbnCount u isbn l := by
  induction l with
  | nil => simp [keyCount, isbnCount]
  | cons r rest ih =>
    simp only [keyCount, isbnCount]
    by_cases hk : r.user_id = u ∧ r.borrow_date = bd ∧ r.isbn = isbn
    · have hui : r.user_id = u ∧ r.isbn = isbn := ⟨hk.1, hk.2.2⟩
      simp only [if_pos hk, if_pos hui]
      omega
    · simp only [if_neg hk]
      split <;> omega

theorem all_delActive {p : ActiveRow → Bool} {l : List ActiveRow} (u bd : Nat)
    (isbn : String) (h : l.all p = true) : (delActive u bd isbn l).all p = true := by
  induction l with
  | nil => rfl
  | cons r rest ih =>
    simp only [List.all_cons, Bool.and_eq_true] at h
    by_cases hk : r.user_id = u ∧ r.borrow_date = bd ∧ r.isbn = isbn
    · simp only [delActive, if_pos hk]
      exact ih h.2
    · simp only [delActive, if_neg hk, List.all_cons, Bool.and_eq_true]
      exact ⟨h.1, ih h.2⟩

theorem delActive_all_not_key (u bd : Nat) (isbn : String) (l : List ActiveRow) :
    (delActive u bd isbn l).all (fun x =>
      decide (¬(x.user_id = u ∧ x.borrow_date = bd ∧ x.isbn = isbn))) = true := by
  induction l with
  | nil => rfl
  | cons r rest ih =>
    by_cases hk : r.user_id = u ∧ r.borrow_date = bd ∧ r.isbn = isbn
    · simp only [delActive, if_pos hk]
      exact ih
    · simp only [delActive, if_neg hk, List.all_cons, Bool.and_eq_true]
      exact ⟨decide_eq_true hk, ih⟩

theorem noDupKeys_delActive {l : List ActiveRow} (u bd : Nat) (isbn : String)
    (h : noDupKeys l = true) : noDupKeys (delActive u bd isbn l) = true := by
  induction l with
  | nil => rfl
  | cons r rest ih =>
    simp only [noDupKeys, Bool.and_eq_true] at h
    by_cases hk : r.user_id = u ∧ r.borrow_date = bd ∧ r.isbn = isbn
    · simp only [delActive, if_pos hk]
      exact ih h.2
    · simp only [delActive, if_neg hk, noDupKeys, Bool.and_eq_true]
      exact ⟨all_delActive u bd isbn h.1, ih h.2⟩

theorem noDupKeys_insActive {l : List ActiveRow} (a : ActiveRow)
    (h : noDupKeys l = true) : noDupKeys (insActive a l) = true := by
  simp only [insActive, noDupKeys, Bool.and_eq_true]
  exact ⟨delActive_all_not_key a.user_id a.borrow_date a.isbn l,
    noDupKeys_delActive a.user_id a.borrow_date a.isbn h⟩


theorem borrow_book_run {st : DB} {u : Nat} {isbn : String} {d : Nat} {w : Option Nat}
    {book : BookRow} {a : Int} {user : UserRow}
    (hb : alookup isbn st.books_by_id = some book)
    (ha : book.available_copies = some a) (hpos : 0 < a)
    (hu : alookup u st.users_by_id = some user)
    (hcat : book.category ≠ none) (hti : book.title ≠ none) (hau : book.author ≠ none)
    (hw : ∀ i, i < 7 → w ≠ some i) :
    borrow_book st u isbn d w =
      (⟨true, "Emprunt effectué"⟩, borrowFinal st u isbn d book a user) := by
  have h0 := hw 0 (by omega)
  have h1 := hw 1 (by omega)
  have h2 := hw 2 (by omega)
  have h3 := hw 3 (by omega)
  have h4 := hw 4 (by omega)
  have h5 := hw 5 (by omega)
  have h6 := hw 6 (by omega)
  have hle : ¬ a ≤ 0 := by omega
  simp only [borrow_book, hb, ha, hu, if_neg hle]
  simp [h0, h1, h2, h3, h4, h5, h6, hcat, hti, hau, borrowFinal]

theorem return_book_run {st : DB} {u : Nat} {isbn : String} {w : Option Nat}
    {m : ActiveRow} {book : BookRow} {user : UserRow}
    (hm : findIsbn isbn (activePartition u st.active_borrows_by_user) = some m)
    (hb : alookup isbn st.books_by_id = some book)
    (hu : alookup u st.users_by_id = some user)
    (hcat : book.category ≠ none) (hti : book.title ≠ none) (hau : book.author ≠ none)
    (hw : ∀ i, i < 7 → w ≠ some i) :
    return_book st u isbn w =
      (⟨true, "Livre retourné"⟩, returnFinal st u isbn m book user) := by
  have h0 := hw 0 (by omega)
  have h1 := hw 1 (by omega)
  have h2 := hw 2 (by omega)
  have h3 := hw 3 (by omega)
  have h4 := hw 4 (by omega)
  have h5 := hw 5 (by omega)
  have h6 := hw 6 (by omega)
  simp only [return_book, hm, hb, hu]
  simp [h0, h1, h2, h3, h4, h5, h6, hcat, hti, hau, returnFinal]

theorem borrow_book_ok_shape {st : DB} {u : Nat} {isbn : String} {d : Nat}
    {w : Option Nat} (h : (borrow_book st u isbn d w).1.ok = true) :
    ∃ book a user, alookup isbn st.books_by_id = some book ∧
      book.available_copies = some a ∧ 0 < a ∧
      alookup u st.users_by_id = some user ∧
      book.category ≠ none ∧ book.title ≠ none ∧ book.author ≠ none ∧
      ∀ i, i < 7 → w ≠ some i := by
  cases hb : alookup isbn st.books_by_id with
  | none => simp [borrow_book, hb] at h
  | some book =>
  cases ha : book.available_copies with
  | none => simp [borrow_book, hb, ha] at h
  | some a =>
  by_cases hle : a ≤ 0
  · simp [borrow_book, hb, ha, hle] at h
  cases hu : alookup u st.users_by_id with
  | none => simp [borrow_book, hb, ha, hle, hu] at h
  | some user =>
  by_cases h0 : w = some 0
  · simp [borrow_book, hb, ha, hle, hu, h0] at h
  by_cases hcat : book.category = none
  · simp [borrow_book, hb, ha, hle, hu, h0, hcat] at h
  by_cases hti : book.title = none
  · simp [borrow_book, hb, ha, hle, hu, h0, hti] at h
  by_cases h1 : w = some 1
  · simp [borrow_book, hb, ha, hle, hu, h0, h1] at h
  by_cases hau : book.author = none
  · simp [borrow_book, hb, ha, hle, hu, h0, h1, hcat, hti, hau] at h
  by_cases h2 : w = some 2
  · simp [borrow_book, hb, ha, hle, hu, h0, h1, h2, hcat, hti] at h
  by_cases h3 : w = some 3
  · simp [borrow_book, hb, ha, hle, hu, h0, h1, h2, h3, hcat, hti, hau] at h
  by_cases h4 : w = some 4
  · simp [borrow_book, hb, ha, hle, hu, h0, h1, h2, h3, h4, hcat, hti, hau] at h
  by_cases h5 : w = some 5
  · simp [borrow_book, hb, ha, hle, hu, h0, h1, h2, h3, h4, h5, hcat, hti, hau] at h
  by_cases h6 : w = some 6
  · simp [borrow_book, hb, ha, hle, hu, h0, h1, h2, h3, h4, h5, h6, hcat, hti, hau] at h
  exact ⟨book, a, user, rfl, ha, by omega, rfl, hcat, hti, hau, by
    intro i hi hw
    subst hw
    interval_cases i <;> simp_all⟩

theorem return_book_ok_shape {st : DB} {u : Nat} {isbn : String}
    {w : Option Nat} (h : (return_book st u isbn w).1.ok = true) :
    ∃ m book user, findIsbn isbn (activePartition u st.active_borrows_by_user) = some m ∧
      alookup isbn st.books_by_id = some book ∧
      alookup u st.users_by_id = some user ∧
      book.category ≠ none ∧ book.title ≠ none ∧ book.author ≠ none ∧
      ∀ i, i < 7 → w ≠ some i := by
  cases hm : findIsbn isbn (activePartition u st.active_borrows_by_user) with
  | none => simp [return_book, hm] at h
  | some m =>
  cases hb : alookup isbn st.books_by_id with
  | none => simp [return_book, hm, hb] at h
  | some book =>
  cases hu : alookup u st.users_by_id with
  | none => simp [return_book, hm, hb, hu] at h
  | some user =>
  by_cases h0 : w = some 0
  · simp [return_book, hm, hb, hu, h0] at h
  by_cases hcat : book.category = none
  · simp [return_book, hm, hb, hu, h0, hcat] at h
  by_cases hti : book.title = none
  · simp [return_book, hm, hb, hu, h0, hti] at h
  by_cases h1 : w = some 1
  · simp [return_book, hm, hb, hu, h0, h1] at h
  by_cases hau : book.author = none
  · simp [return_book, hm, hb, hu, h0, h1, hcat, hti, hau] at h
  by_cases h2 : w = some 2
  · simp [return_book, hm, hb, hu, h0, h1, h2, hcat, hti] at h
  by_cases h3 : w = some 3
  · simp [return_book, hm, hb, hu, h0, h1, h2, h3, hcat, hti, hau] at h
  by_cases h4 : w = some 4
  · simp [return_book, hm, hb, hu, h0, h1, h2, h3, h4, hcat, hti, hau] at h
  by_cases h5 : w = some 5
  · simp [return_book, hm, hb, hu, h0, h1, h2, h3, h4, h5, hcat, hti, hau] at h
  by_cases h6 : w = some 6
  · simp [return_book, hm, hb, hu, h0, h1, h2, h3, h4, h5, h6, hcat, hti, hau] at h
  exact ⟨m, book, user, rfl, rfl, rfl, hcat, hti, hau, by
    intro i hi hw
    subst hw
    interval_cases i <;> simp_all⟩

/-! ## Restatement lemmas for the invariants -/

theorem mem_delActive {u bd : Nat} {isbn : String} {l : List ActiveRow} {r : ActiveRow}
    (h : r ∈ delActive u bd isbn l) : r ∈ l := by
  induction l with
  | nil => simp [delActive] at h
  | cons x rest ih =>
    by_cases hk : x.user_id = u ∧ x.borrow_date = bd ∧ x.isbn = isbn
    · simp only [delActive, if_pos hk] at h
      exact List.mem_cons_of_mem _ (ih h)
    · simp only [delActive, if_neg hk] at h
      rcases List.mem_cons.mp h with h | h
      · subst h
        exact List.mem_cons_self _ _
      · exact List.mem_cons_of_mem _ (ih h)

theorem freshActive_iff {st : DB} : freshActive st = true ↔
    ∀ r ∈ st.active_borrows_by_user, r.borrow_date < st.time := by
  simp [freshActive, List.all_eq_true]

theorem copiesInv_none {st : DB} {isbn : String}
    (hb : alookup isbn st.books_by_id = none) : copiesInv st isbn = true := by
  unfold copiesInv
  rw [hb]

theorem copiesInv_some {st : DB} {isbn : String} {r : BookRow}
    (hb : alookup isbn st.books_by_id = some r) :
    copiesInv st isbn = true ↔
      ∃ a t, r.available_copies = some a ∧ r.total_copies = some t ∧ 0 ≤ a ∧ a ≤ t := by
  unfold copiesInv
  rw [hb]
  cases ha : r.available_copies with
  | none => simp [ha]
  | some a =>
    cases ht : r.total_copies with
    | none => simp [ha, ht]
    | some t => simp [ha, ht]

theorem copiesInv_congr {st st' : DB} {isbn : String}
    (h : alookup isbn st'.books_by_id = alookup isbn st.books_by_id) :
    copiesInv st' isbn = copiesInv st isbn := by
  unfold copiesInv
  rw [h]

theorem counterInv_none {st : DB} {u : Nat}
    (hu : alookup u st.users_by_id = none) : counterInv st u = true := by
  unfold counterInv
  rw [hu]

theorem counterInv_some {st : DB} {u : Nat} {r : UserRow}
    (hu : alookup u st.users_by_id = some r) :
    counterInv st u = true ↔
      r.active_borrows = some ((activeCount u st.active_borrows_by_user : Nat) : Int) := by
  unfold counterInv
  rw [hu]
  simp

/-! ## Invariant preservation, one step at a time -/

theorem copiesInv_borrow_step {st : DB} {u : Nat} {i : String} {d : Nat}
    {w : Option Nat} (isbn : String)
    (hok : (borrow_book st u i d w).1.ok = true)
    (hinv : copiesInv st isbn = true) :
    copiesInv (borrow_book st u i d w).2 isbn = true := by
  obtain ⟨book, a, user, hb, ha, hpos, hu, hcat, hti, hau, hw⟩ := borrow_book_ok_shape hok
  rw [borrow_book_run hb ha hpos hu hcat hti hau hw]
  show copiesInv (borrowFinal st u i d book a user) isbn = true
  by_cases hi : isbn = i
  · subst hi
    obtain ⟨a', t, ha', ht, h0, hat⟩ := (copiesInv_some hb).mp hinv
    have haa : a' = a := by
      rw [ha] at ha'
      exact (Option.some.injEq _ _ ▸ ha').symm
    subst haa
    have hupd : alookup isbn ((borrowFinal st u isbn d book a' user).books_by_id) =
        some { book with available_copies := some (a' - 1) } := by
      simp only [borrowFinal, updBookAvail]
      exact alookup_aupdate_self_some _ _ hb
    exact (copiesInv_some hupd).mpr ⟨a' - 1, t, rfl, ht, by omega, by omega⟩
  · have hlk : alookup isbn ((borrowFinal st u i d book a user).books_by_id) =
        alookup isbn st.books_by_id := by
      simp only [borrowFinal, updBookAvail]
      exact alookup_aupdate_ne hi _ _ _
    rw [copiesInv_congr hlk]
    exact hinv

theorem copiesInv_return_step {st : DB} {u : Nat} {i : String}
    {w : Option Nat} (isbn : String)
    (hok : (return_book st u i w).1.ok = true)
    (hinv : copiesInv st isbn = true) :
    copiesInv (return_book st u i w).2 isbn = true := by
  obtain ⟨m, book, user, hm, hb, hu, hcat, hti, hau, hw⟩ := return_book_ok_shape hok
  rw [return_book_run hm hb hu hcat hti hau hw]
  show copiesInv (returnFinal st u i m book user) isbn = true
  by_cases hi : isbn = i
  · subst hi
    obtain ⟨a, t, ha, ht, h0, hat⟩ := (copiesInv_some hb).mp hinv
    have hupd : alookup isbn ((returnFinal st u isbn m book user).books_by_id) =
        some { book with available_copies := some (returnNewAvail book) } := by
      simp only [returnFinal, updBookAvail]
      exact alookup_aupdate_self_some _ _ hb
    have hval : returnNewAvail book = min (a + 1) t := by
      unfold returnNewAvail
      rw [ht, ha]
      simp
    refine (copiesInv_some hupd).mpr ⟨returnNewAvail book, t, rfl, ht, ?_, ?_⟩ <;>
      rw [hval] <;> omega
  · have hlk : alookup isbn ((returnFinal st u i m book user).books_by_id) =
        alookup isbn st.books_by_id := by
      simp only [returnFinal, updBookAvail]
      exact alookup_aupdate_ne hi _ _ _
    rw [copiesInv_congr hlk]
    exact hinv

theorem consistent_borrow_step {st : DB} {u' : Nat} {i : String} {d : Nat}
    {w : Option Nat} (u : Nat)
    (hok : (borrow_book st u' i d w).1.ok = true)
    (hc : consistentFor st u = true) :
    consistentFor (borrow_book st u' i d w).2 u = true := by
  obtain ⟨book, a, user, hb, ha, hpos, hu, hcat, hti, hau, hw⟩ := borrow_book_ok_shape hok
  rw [borrow_book_run hb ha hpos hu hcat hti hau hw]
  show consistentFor (borrowFinal st u' i d book a user) u = true
  simp only [consistentFor, Bool.and_eq_true] at hc
  obtain ⟨⟨hcount, hfresh⟩, hnd⟩ := hc
  have hfresh' := freshActive_iff.mp hfresh
  have hdel : delActive u' st.time i st.active_borrows_by_user = st.active_borrows_by_user :=
    delActive_eq_of_all (fun r hr hcontr => by
      have := hfresh' r hr
      obtain ⟨-, h2, -⟩ := hcontr
      omega)
  simp only [consistentFor, Bool.and_eq_true]
  refine ⟨⟨?_, ?_⟩, ?_⟩
  · by_cases huu : u = u'
    · subst huu
      have hlu : alookup u ((borrowFinal st u i d book a user).users_by_id) =
          some { user with total_borrows := some (user.total_borrows.getD 0 + 1), active_borrows := some (user.active_borrows.getD 0 + 1) } := by
        simp only [borrowFinal, updUserCounts]
        exact alookup_aupdate_self_some _ _ hu
      have hcnt : activeCount u ((borrowFinal st u i d book a user).active_borrows_by_user) =
          activeCount u st.active_borrows_by_user + 1 := by
        simp only [borrowFinal, insActive]
        rw [activeCount_cons, hdel, if_pos rfl]
        omega
      rw [counterInv_some hlu, hcnt]
      have hab := (counterInv_some hu).mp hcount
      simp only [hab, Option.getD_some, Option.some.injEq]
      omega
    · have hlu : alookup u ((borrowFinal st u' i d book a user).users_by_id) =
          alookup u st.users_by_id := by
        simp only [borrowFinal, updUserCounts]
        exact alookup_aupdate_ne huu _ _ _
      have hcnt : activeCount u ((borrowFinal st u' i d book a user).active_borrows_by_user) =
          activeCount u st.active_borrows_by_user := by
        simp only [borrowFinal, insActive]
        rw [activeCount_cons, if_neg (fun hh => huu hh.symm), hdel]
        omega
      cases hlo : alookup u st.users_by_id with
      | none => exact counterInv_none (hlu.trans hlo)
      | some r =>
        rw [counterInv_some (hlu.trans hlo), hcnt]
        exact (counterInv_some hlo).mp hcount
  · rw [freshActive_iff]
    intro r hr
    simp only [borrowFinal, insActive, List.mem_cons] at hr
    rcases hr with h | h
    · subst h
      simp only [borrowFinal]
      omega
    · have := hfresh' _ (mem_delActive h)
      simp only [borrowFinal]
      omega
  · simp only [borrowFinal]
    exact noDupKeys_insActive _ hnd

theorem consistent_return_step {st : DB} {u' : Nat} {i : String}
    {w : Option Nat} (u : Nat)
    (hok : (return_book st u' i w).1.ok = true)
    (hc : consistentFor st u = true) :
    consistentFor (return_book st u' i w).2 u = true := by
  obtain ⟨m, book, user, hm, hb, hu, hcat, hti, hau, hw⟩ := return_book_ok_shape hok
  obtain ⟨hmem, hmu, hmi⟩ := findIsbn_activePartition_some hm
  rw [return_book_run hm hb hu hcat hti hau hw]
  show consistentFor (returnFinal st u' i m book user) u = true
  simp only [consistentFor, Bool.and_eq_true] at hc
  obtain ⟨⟨hcount, hfresh⟩, hnd⟩ := hc
  have hfresh' := freshActive_iff.mp hfresh
  simp only [consistentFor, Bool.and_eq_true]
  refine ⟨⟨?_, ?_⟩, ?_⟩
  · by_cases huu : u = u'
    · subst huu
      have hlu : alookup u ((returnFinal st u i m book user).users_by_id) =
          some { user with total_borrows := some (user.total_borrows.getD 0), active_borrows := some (max 0 (user.active_borrows.getD 0 - 1)) } := by
        simp only [returnFinal, updUserCounts]
        exact alookup_aupdate_self_some _ _ hu
      have hkey : keyCount u m.borrow_date i st.active_borrows_by_user = 1 := by
        have := keyCount_eq_one_of_noDup hnd hmem
        rwa [hmu, hmi] at this
      have hsub := activeCount_delActive_self u m.borrow_date i st.active_borrows_by_user
      have hpos1 : 1 ≤ activeCount u st.active_borrows_by_user :=
        activeCount_pos_of_mem hmem hmu
      have hcnt : activeCount u ((returnFinal st u i m book user).active_borrows_by_user) =
          activeCount u st.active_borrows_by_user - 1 := by
        simp only [returnFinal]
        omega
      rw [counterInv_some hlu, hcnt]
      have hab := (counterInv_some hu).mp hcount
      simp only [hab, Option.getD_some, Option.some.injEq]
      omega
    · have hlu : alookup u ((returnFinal st u' i m book user).users_by_id) =
          alookup u st.users_by_id := by
        simp only [returnFinal, updUserCounts]
        exact alookup_aupdate_ne huu _ _ _
      have hcnt : activeCount u ((returnFinal st u' i m book user).active_borrows_by_user) =
          activeCount u st.active_borrows_by_user := by
        simp only [returnFinal]
        exact activeCount_delActive_ne huu _
      cases hlo : alookup u st.users_by_id with
      | none => exact counterInv_none (hlu.trans hlo)
      | some r =>
        rw [counterInv_some (hlu.trans hlo), hcnt]
        exact (counterInv_some hlo).mp hcount
  · rw [freshActive_iff]
    intro r hr
    simp only [returnFinal] at hr ⊢
    have := hfresh' _ (mem_delActive hr)
    omega
  · simp only [returnFinal]
    exact noDupKeys_delActive _ _ _ hnd

/-- `consistentFor` is preserved by any serial run of successful operations. -/
theorem consistent_runOps {st : DB} {u : Nat} {ops : List Op}
    (hc : consistentFor st u = true) (hall : allOk st ops = true) :
    consistentFor (runOps st ops) u = true := by
  induction ops generalizing st with
  | nil => exact hc
  | cons op rest ih =>
    simp only [allOk, Bool.and_eq_true] at hall
    cases op with
    | borrow u' i d w =>
      exact ih (consistent_borrow_step u hall.1 hc) hall.2
    | ret u' i w =>
      exact ih (consistent_return_step u hall.1 hc) hall.2

/-! ## The claims -/

/-- C2: for every book and every serially executed sequence of successful
Borrow and Return operations starting from a state where
`0 ≤ available_copies ≤ total_copies` holds for that book, the invariant
`0 ≤ available_copies ≤ total_copies` still holds for that book after the
sequence. -/
theorem claim_C2_copies_invariant (st : DB) (isbn : String) (ops : List Op)
    (hinv : copiesInv st isbn = true) (hall : allOk st ops = true) :
    copiesInv (runOps st ops) isbn = true := by
  induction ops generalizing st with
  | nil => exact hinv
  | cons op rest ih =>
    simp only [allOk, Bool.and_eq_true] at hall
    simp only [runOps]
    cases op with
    | borrow u i d w =>
      exact ih _ (copiesInv_borrow_step isbn hall.1 hinv) hall.2
    | ret u i w =>
      exact ih _ (copiesInv_return_step isbn hall.1 hinv) hall.2

/-- Witness for C2 on a concrete borrow/return run. -/
theorem claim_C2_copies_invariant_witness :
    copiesInv dbDemo "X" = true ∧
    allOk dbDemo [Op.borrow 7 "X" 14 none, Op.ret 7 "X" none] = true ∧
    copiesInv (runOps dbDemo [Op.borrow 7 "X" 14 none, Op.ret 7 "X" none]) "X" = true :=
  ⟨by decide, by decide,
    claim_C2_copies_invariant dbDemo "X" [Op.borrow 7 "X" 14 none, Op.ret 7 "X" none]
      (by decide) (by decide)⟩

/-- C3: for every patron and every serially executed sequence of successful
Borrow and Return operations starting from a consistent state (counter matches
the active partition, timestamps predate the clock, active keys distinct),
the patron's `active_borrows` counter equals the number of rows in that
patron's active-loan partition after the sequence. -/
theorem claim_C3_counter_consistency (st : DB) (u : Nat) (ops : List Op)
    (hfresh : freshActive st = true)
    (hnd : noDupKeys st.active_borrows_by_user = true)
    (hcount : counterInv st u = true) (hall : allOk st ops = true) :
    counterInv (runOps st ops) u = true := by
  have hc : consistentFor st u = true := by
    simp only [consistentFor, Bool.and_eq_true]
    exact ⟨⟨hcount, hfresh⟩, hnd⟩
  have h := consistent_runOps hc hall
  simp only [consistentFor, Bool.and_eq_true] at h
  exact h.1.1

/-- Witness for C3 on a concrete borrow/borrow/return run. -/
theorem claim_C3_counter_consistency_witness :
    counterInv (runOps dbDemo [Op.borrow 7 "X" 14 none, Op.borrow 7 "X" 14 none, Op.ret 7 "X" none]) 7 = true :=
  claim_C3_counter_consistency dbDemo 7
    [Op.borrow 7 "X" 14 none, Op.borrow 7 "X" 14 none, Op.ret 7 "X" none]
    (by decide) (by decide) (by decide) (by decide)

/-- C5: Borrow evaluates its validations in the fixed order book existence,
then availability, then patron existence, and the first failing check
determines the result: a missing book yields the book-not-found failure, an
existing book with no available copy yields the unavailable failure even when
the patron does not exist, and an existing available book with a missing
patron yields the patron-not-found failure.  In each case the returned state
is exactly the input state. -/
theorem claim_C5_borrow_validation_order (st : DB) (u : Nat) (isbn : String)
    (d : Nat) (w : Option Nat) :
    (alookup isbn st.books_by_id = none →
      borrow_book st u isbn d w = (⟨false, "Livre introuvable"⟩, st)) ∧
    (∀ book, alookup isbn st.books_by_id = some book →
      (∀ a, book.available_copies = some a → a ≤ 0) →
      borrow_book st u isbn d w = (⟨false, "Aucune copie disponible"⟩, st)) ∧
    (∀ book a, alookup isbn st.books_by_id = some book →
      book.available_copies = some a → 0 < a →
      alookup u st.users_by_id = none →
      borrow_book st u isbn d w = (⟨false, "Utilisateur introuvable"⟩, st)) := by
  refine ⟨fun hb => by simp [borrow_book, hb],
    fun book hb hle => ?_, fun book a hb ha hpos hu => ?_⟩
  · cases ha : book.available_copies with
    | none => simp [borrow_book, hb, ha]
    | some a =>
      have h0 := hle a ha
      simp [borrow_book, hb, ha, h0]
  · have hgt : ¬ a ≤ 0 := by omega
    simp [borrow_book, hb, ha, hgt, hu]

/-- Witness for C5: the three validation outcomes at concrete states, the
second one at a state where the patron does not exist either. -/
theorem claim_C5_borrow_validation_order_witness :
    borrow_book dbEmpty 7 "X" 14 none = (⟨false, "Livre introuvable"⟩, dbEmpty) ∧
    borrow_book dbNoCopies 9 "X" 14 none = (⟨false, "Aucune copie disponible"⟩, dbNoCopies) ∧
    borrow_book dbNoUser 9 "X" 14 none = (⟨false, "Utilisateur introuvable"⟩, dbNoUser) :=
  ⟨(claim_C5_borrow_validation_order dbEmpty 7 "X" 14 none).1 (by decide),
   (claim_C5_borrow_validation_order dbNoCopies 9 "X" 14 none).2.1
     ⟨some "Dune", some "Herbert", some "SF", some "Ace", some 1965, some 2, some 0, some ""⟩
     (by decide) (fun a ha => by simp at ha; omega),
   (claim_C5_borrow_validation_order dbNoUser 9 "X" 14 none).2.2
     ⟨some "Dune", some "Herbert", some "SF", some "Ace", some 1965, some 2, some 1, some ""⟩
     1 (by decide) (by decide) (by decide) (by decide)⟩

/-- C9: when Borrow or Return fails one of its precondition validations
(identified by the validation failure message), the operation performs no
write at all: the returned state is exactly the input state. -/
theorem claim_C9_validation_failure_no_writes (st : DB) (u : Nat) (isbn : String)
    (d : Nat) (w : Option Nat) :
    (((borrow_book st u isbn d w).1.message = "Livre introuvable" ∨
      (borrow_book st u isbn d w).1.message = "Aucune copie disponible" ∨
      (borrow_book st u isbn d w).1.message = "Utilisateur introuvable") →
        (borrow_book st u isbn d w).2 = st) ∧
    (((return_book st u isbn w).1.message = "Aucun emprunt actif trouvé pour ce livre" ∨
      (return_book st u isbn w).1.message = "Livre introuvable (books_by_id)" ∨
      (return_book st u isbn w).1.message = "Utilisateur introuvable") →
        (return_book st u isbn w).2 = st) := by
  constructor
  · intro hmsg
    cases hb : alookup isbn st.books_by_id with
    | none => simp [borrow_book, hb]
    | some book =>
    cases ha : book.available_copies with
    | none => simp [borrow_book, hb, ha]
    | some a =>
    by_cases hle : a ≤ 0
    · simp [borrow_book, hb, ha, hle]
    cases hu : alookup u st.users_by_id with
    | none => simp [borrow_book, hb, ha, hle, hu]
    | some user =>
    by_cases h0 : w = some 0
    · simp [borrow_book, hb, ha, hle, hu, h0] at hmsg
    by_cases hcat : book.category = none
    · simp [borrow_book, hb, ha, hle, hu, h0, hcat] at hmsg
    by_cases hti : book.title = none
    · simp [borrow_book, hb, ha, hle, hu, h0, hti] at hmsg
    by_cases h1 : w = some 1
    · simp [borrow_book, hb, ha, hle, hu, h0, h1] at hmsg
    by_cases hau : book.author = none
    · simp [borrow_book, hb, ha, hle, hu, h0, h1, hcat, hti, hau] at hmsg
    by_cases h2 : w = some 2
    · simp [borrow_book, hb, ha, hle, hu, h0, h1, h2, hcat, hti] at hmsg
    by_cases h3 : w = some 3
    · simp [borrow_book, hb, ha, hle, hu, h0, h1, h2, h3, hcat, hti, hau] at hmsg
    by_cases h4 : w = some 4
    · simp [borrow_book, hb, ha, hle, hu, h0, h1, h2, h3, h4, hcat, hti, hau] at hmsg
    by_cases h5 : w = some 5
    · simp [borrow_book, hb, ha, hle, hu, h0, h1, h2, h3, h4, h5, hcat, hti, hau] at hmsg
    by_cases h6 : w = some 6
    · simp [borrow_book, hb, ha, hle, hu, h0, h1, h2, h3, h4, h5, h6, hcat, hti, hau] at hmsg
    simp [borrow_book, hb, ha, hle, hu, h0, h1, h2, h3, h4, h5, h6, hcat, hti, hau] at hmsg
  · intro hmsg
    cases hm : findIsbn isbn (activePartition u st.active_borrows_by_user) with
    | none => simp [return_book, hm]
    | some m =>
    cases hb : alookup isbn st.books_by_id with
    | none => simp [return_book, hm, hb]
    | some book =>
    cases hu : alookup u st.users_by_id with
    | none => simp [return_book, hm, hb, hu]
    | some user =>
    by_cases h0 : w = some 0
    · simp [return_book, hm, hb, hu, h0] at hmsg
    by_cases hcat : book.category = none
    · simp [return_book, hm, hb, hu, h0, hcat] at hmsg
    by_cases hti : book.title = none
    · simp [return_book, hm, hb, hu, h0, hti] at hmsg
    by_cases h1 : w = some 1
    · simp [return_book, hm, hb, hu, h0, h1] at hmsg
    by_cases hau : book.author = none
    · simp [return_book, hm, hb, hu, h0, h1, hcat, hti, hau] at hmsg
    by_cases h2 : w = some 2
    · simp [return_book, hm, hb, hu, h0, h1, h2, hcat, hti] at hmsg
    by_cases h3 : w = some 3
    · simp [return_book, hm, hb, hu, h0, h1, h2, h3, hcat, hti, hau] at hmsg
    by_cases h4 : w = some 4
    · simp [return_book, hm, hb, hu, h0, h1, h2, h3, h4, hcat, hti, hau] at hmsg
    by_cases h5 : w = some 5
    · simp [return_book, hm, hb, hu, h0, h1, h2, h3, h4, h5, hcat, hti, hau] at hmsg
    by_cases h6 : w = some 6
    · simp [return_book, hm, hb, hu, h0, h1, h2, h3, h4, h5, h6, hcat, hti, hau] at hmsg
    simp [return_book, hm, hb, hu, h0, h1, h2, h3, h4, h5, h6, hcat, hti, hau] at hmsg

/-- Witness for C9: a borrow and a return that fail validation on the empty
keyspace leave the state untouched. -/
theorem claim_C9_validation_failure_no_writes_witness :
    (borrow_book dbEmpty 7 "X" 14 none).2 = dbEmpty ∧
    (return_book dbEmpty 7 "X" none).2 = dbEmpty :=
  ⟨(claim_C9_validation_failure_no_writes dbEmpty 7 "X" 14 none).1 (by decide),
   (claim_C9_validation_failure_no_writes dbEmpty 7 "X" 14 none).2 (by decide)⟩

/-- C10: Borrow treats a null `available_copies` on an existing book as zero
availability and fails with the unavailable result instead of erroring; Return
treats a null `available_copies` as 0 and skips the clamp when `total_copies`
is null, so the computed new availability is 1 and a normal run succeeds and
stores it, rather than crashing. -/
theorem claim_C10_null_copy_counters (st : DB) (u : Nat) (isbn : String)
    (d : Nat) (w : Option Nat) :
    (∀ book, alookup isbn st.books_by_id = some book → book.available_copies = none →
      borrow_book st u isbn d w = (⟨false, "Aucune copie disponible"⟩, st)) ∧
    (∀ book : BookRow, book.available_copies = none → book.total_copies = none →
      returnNewAvail book = 1) ∧
    (∀ m book user,
      findIsbn isbn (activePartition u st.active_borrows_by_user) = some m →
      alookup isbn st.books_by_id = some book →
      alookup u st.users_by_id = some user →
      book.available_copies = none → book.total_copies = none →
      book.category ≠ none → book.title ≠ none → book.author ≠ none →
      (return_book st u isbn none).1.ok = true ∧
      alookup isbn (return_book st u isbn none).2.books_by_id =
        some { book with available_copies := some 1 }) := by
  refine ⟨fun book hb ha => by simp [borrow_book, hb, ha],
    fun book ha ht => ?_, fun m book user hm hb hu ha ht hcat hti hau => ?_⟩
  · unfold returnNewAvail
    rw [ht, ha]
    decide
  · have hrun := return_book_run hm hb hu hcat hti hau
      (w := none) (fun i _ => by simp)
    rw [hrun]
    have h1 : returnNewAvail book = 1 := by
      unfold returnNewAvail
      rw [ht, ha]
      decide
    refine ⟨rfl, ?_⟩
    show alookup isbn ((returnFinal st u isbn m book user).books_by_id) = _
    simp only [returnFinal, updBookAvail]
    rw [alookup_aupdate_self_some _ _ hb, h1]

/-- Witness for C10: a book whose two copy counters are both null, with an
active loan to return; the borrow fails softly and the return succeeds,
writing availability 1. -/
theorem claim_C10_null_copy_counters_witness :
    borrow_book dbNullCounters 7 "X" 14 none = (⟨false, "Aucune copie disponible"⟩, dbNullCounters) ∧
    (return_book dbNullCounters 7 "X" none).1.ok = true ∧
    alookup "X" (return_book dbNullCounters 7 "X" none).2.books_by_id =
      some ⟨some "Dune", some "Herbert", some "SF", some "Ace", some 1965, none, some 1, some ""⟩ :=
  ⟨(claim_C10_null_copy_counters dbNullCounters 7 "X" 14 none).1
     ⟨some "Dune", some "Herbert", some "SF", some "Ace", some 1965, none, none, some ""⟩
     (by decide) (by decide),
   ((claim_C10_null_copy_counters dbNullCounters 7 "X" 14 none).2.2
     ⟨7, 3, "X", some "Dune", some 17⟩
     ⟨some "Dune", some "Herbert", some "SF", some "Ace", some 1965, none, none, some ""⟩
     ⟨some "a@x.com", some "Ann", some "Lee", some "", some "", some 0, some 1, some 1⟩
     (by decide) (by decide) (by decide) (by decide) (by decide)
     (by decide) (by decide) (by decide)).1,
   ((claim_C10_null_copy_counters dbNullCounters 7 "X" 14 none).2.2
     ⟨7, 3, "X", some "Dune", some 17⟩
     ⟨some "Dune", some "Herbert", some "SF", some "Ace", some 1965, none, none, some ""⟩
     ⟨some "a@x.com", some "Ann", some "Lee", some "", some "", some 0, some 1, some 1⟩
     (by decide) (by decide) (by decide) (by decide) (by decide)
     (by decide) (by decide) (by decide)).2⟩

/-- C6: after every successful Borrow and after every successful Return, the
`available_copies` value stored for the affected book is identical across the
three book views, located through the category/title/author recorded in the
by-id row. -/
theorem claim_C6_views_agree (st : DB) (u : Nat) (isbn : String) (d : Nat)
    (w : Option Nat) :
    ((borrow_book st u isbn d w).1.ok = true →
      viewsAgree (borrow_book st u isbn d w).2 isbn = true) ∧
    ((return_book st u isbn w).1.ok = true →
      viewsAgree (return_book st u isbn w).2 isbn = true) := by
  constructor
  · intro hok
    obtain ⟨book, a, user, hb, ha, hpos, hu, hcat, hti, hau, hw⟩ := borrow_book_ok_shape hok
    rw [borrow_book_run hb ha hpos hu hcat hti hau hw]
    show viewsAgree (borrowFinal st u isbn d book a user) isbn = true
    obtain ⟨c, hc⟩ := Option.ne_none_iff_exists'.mp hcat
    obtain ⟨ti, hti'⟩ := Option.ne_none_iff_exists'.mp hti
    obtain ⟨au, hau'⟩ := Option.ne_none_iff_exists'.mp hau
    have hbid : alookup isbn ((borrowFinal st u isbn d book a user).books_by_id) =
        some { book with available_copies := some (a - 1) } := by
      simp only [borrowFinal, updBookAvail]
      exact alookup_aupdate_self_some _ _ hb
    unfold viewsAgree
    rw [hbid]
    simp only [borrowFinal, hc, hti', hau', Option.getD_some, Bool.and_eq_true]
    constructor
    · cases hcl : alookup (c, ti, isbn) st.books_by_category with
      | none =>
        rw [show updCatAvail (c, ti, isbn) (a - 1) st.books_by_category =
            aupdate (c, ti, isbn) (fun r => { r with available_copies := some (a - 1) })
              ⟨none, none, some (a - 1), none⟩ st.books_by_category from rfl,
          alookup_aupdate_self_none _ _ hcl]
        simp
      | some cr =>
        rw [show updCatAvail (c, ti, isbn) (a - 1) st.books_by_category =
            aupdate (c, ti, isbn) (fun r => { r with available_copies := some (a - 1) })
              ⟨none, none, some (a - 1), none⟩ st.books_by_category from rfl,
          alookup_aupdate_self_some _ _ hcl]
        simp
    · cases hal : alookup (au, ti, isbn) st.books_by_author with
      | none =>
        rw [show updAuthorAvail (au, ti, isbn) (a - 1) st.books_by_author =
            aupdate (au, ti, isbn) (fun r => { r with available_copies := some (a - 1) })
              ⟨none, none, some (a - 1), none⟩ st.books_by_author from rfl,
          alookup_aupdate_self_none _ _ hal]
        simp
      | some ar =>
        rw [show updAuthorAvail (au, ti, isbn) (a - 1) st.books_by_author =
            aupdate (au, ti, isbn) (fun r => { r with available_copies := some (a - 1) })
              ⟨none, none, some (a - 1), none⟩ st.books_by_author from rfl,
          alookup_aupdate_self_some _ _ hal]
        simp
  · intro hok
    obtain ⟨m, book, user, hm, hb, hu, hcat, hti, hau, hw⟩ := return_book_ok_shape hok
    rw [return_book_run hm hb hu hcat hti hau hw]
    show viewsAgree (returnFinal st u isbn m book user) isbn = true
    obtain ⟨c, hc⟩ := Option.ne_none_iff_exists'.mp hcat
    obtain ⟨ti, hti'⟩ := Option.ne_none_iff_exists'.mp hti
    obtain ⟨au, hau'⟩ := Option.ne_none_iff_exists'.mp hau
    have hbid : alookup isbn ((returnFinal st u isbn m book user).books_by_id) =
        some { book with available_copies := some (returnNewAvail book) } := by
      simp only [returnFinal, updBookAvail]
      exact alookup_aupdate_self_some _ _ hb
    unfold viewsAgree
    rw [hbid]
    simp only [returnFinal, hc, hti', hau', Option.getD_some, Bool.and_eq_true]
    constructor
    · cases hcl : alookup (c, ti, isbn) st.books_by_category with
      | none =>
        rw [show updCatAvail (c, ti, isbn) (returnNewAvail book) st.books_by_category =
            aupdate (c, ti, isbn) (fun r => { r with available_copies := some (returnNewAvail book) })
              ⟨none, none, some (returnNewAvail book), none⟩ st.books_by_category from rfl,
          alookup_aupdate_self_none _ _ hcl]
        simp
      | some cr =>
        rw [show updCatAvail (c, ti, isbn) (returnNewAvail book) st.books_by_category =
            aupdate (c, ti, isbn) (fun r => { r with available_copies := some (returnNewAvail book) })
              ⟨none, none, some (returnNewAvail book), none⟩ st.books_by_category from rfl,
          alookup_aupdate_self_some _ _ hcl]
        simp
    · cases hal : alookup (au, ti, isbn) st.books_by_author with
      | none =>
        rw [show updAuthorAvail (au, ti, isbn) (returnNewAvail book) st.books_by_author =
            aupdate (au, ti, isbn) (fun r => { r with available_copies := some (returnNewAvail book) })
              ⟨none, none, some (returnNewAvail book), none⟩ st.books_by_author from rfl,
          alookup_aupdate_self_none _ _ hal]
        simp
      | some ar =>
        rw [show updAuthorAvail (au, ti, isbn) (returnNewAvail book) st.books_by_author =
            aupdate (au, ti, isbn) (fun r => { r with available_copies := some (returnNewAvail book) })
              ⟨none, none, some (returnNewAvail book), none⟩ st.books_by_author from rfl,
          alookup_aupdate_self_some _ _ hal]
        simp

/-- Witness for C6: a successful borrow and a successful return on concrete
states, with view agreement checked afterwards. -/
theorem claim_C6_views_agree_witness :
    viewsAgree (borrow_book dbDemo 7 "X" 14 none).2 "X" = true ∧
    viewsAgree (return_book dbSingle 7 "X" none).2 "X" = true :=
  ⟨(claim_C6_views_agree dbDemo 7 "X" 14 none).1 (by decide),
   (claim_C6_views_agree dbSingle 7 "X" 14 none).2 (by decide)⟩

/-- C7: a successful Return writes `min(available_copies + 1, total_copies)`
(computed from the values read at the start) to the book views, and this
value never exceeds `total_copies`. -/
theorem claim_C7_return_clamp (st : DB) (u : Nat) (isbn : String) (w : Option Nat)
    (book : BookRow) (a t : Int)
    (hb : alookup isbn st.books_by_id = some book)
    (ha : book.available_copies = some a)
    (ht : book.total_copies = some t)
    (hok : (return_book st u isbn w).1.ok = true) :
    min (a + 1) t ≤ t ∧
    alookup isbn (return_book st u isbn w).2.books_by_id =
      some { book with available_copies := some (min (a + 1) t) } ∧
    (∀ c ti, book.category = some c → book.title = some ti →
      ∃ cr, alookup (c, ti, isbn) (return_book st u isbn w).2.books_by_category = some cr ∧
        cr.available_copies = some (min (a + 1) t)) ∧
    (∀ au ti, book.author = some au → book.title = some ti →
      ∃ ar, alookup (au, ti, isbn) (return_book st u isbn w).2.books_by_author = some ar ∧
        ar.available_copies = some (min (a + 1) t)) := by
  obtain ⟨m, book', user, hm, hb', hu, hcat, hti, hau, hw⟩ := return_book_ok_shape hok
  rw [hb] at hb'
  obtain rfl : book = book' := Option.some.inj hb'
  rw [return_book_run hm hb hu hcat hti hau hw]
  have hval : returnNewAvail book = min (a + 1) t := by
    unfold returnNewAvail
    rw [ht, ha]
    simp
  refine ⟨by omega, ?_, ?_, ?_⟩
  · show alookup isbn ((returnFinal st u isbn m book user).books_by_id) = _
    simp only [returnFinal, updBookAvail]
    rw [alookup_aupdate_self_some _ _ hb, hval]
  · intro c ti hcc htt
    show ∃ cr, alookup (c, ti, isbn) ((returnFinal st u isbn m book user).books_by_category) = some cr ∧ _
    simp only [returnFinal, hcc, htt, Option.getD_some]
    cases hcl : alookup (c, ti, isbn) st.books_by_category with
    | none =>
      refine ⟨⟨none, none, some (returnNewAvail book), none⟩, ?_, by rw [hval]⟩
      rw [show updCatAvail (c, ti, isbn) (returnNewAvail book) st.books_by_category =
          aupdate (c, ti, isbn) (fun r => { r with available_copies := some (returnNewAvail book) })
            ⟨none, none, some (returnNewAvail book), none⟩ st.books_by_category from rfl]
      exact alookup_aupdate_self_none _ _ hcl
    | some cr =>
      refine ⟨{ cr with available_copies := some (returnNewAvail book) }, ?_, by rw [hval]⟩
      rw [show updCatAvail (c, ti, isbn) (returnNewAvail book) st.books_by_category =
          aupdate (c, ti, isbn) (fun r => { r with available_copies := some (returnNewAvail book) })
            ⟨none, none, some (returnNewAvail book), none⟩ st.books_by_category from rfl]
      exact alookup_aupdate_self_some _ _ hcl
  · intro au' ti hcc htt
    show ∃ ar, alookup (au', ti, isbn) ((returnFinal st u isbn m book user).books_by_author) = some ar ∧ _
    simp only [returnFinal, hcc, htt, Option.getD_some]
    cases hal : alookup (au', ti, isbn) st.books_by_author with
    | none =>
      refine ⟨⟨none, none, some (returnNewAvail book), none⟩, ?_, by rw [hval]⟩
      rw [show updAuthorAvail (au', ti, isbn) (returnNewAvail book) st.books_by_author =
          aupdate (au', ti, isbn) (fun r => { r with available_copies := some (returnNewAvail book) })
            ⟨none, none, some (returnNewAvail book), none⟩ st.books_by_author from rfl]
      exact alookup_aupdate_self_none _ _ hal
    | some ar =>
      refine ⟨{ ar with available_copies := some (returnNewAvail book) }, ?_, by rw [hval]⟩
      rw [show updAuthorAvail (au', ti, isbn) (returnNewAvail book) st.books_by_author =
          aupdate (au', ti, isbn) (fun r => { r with available_copies := some (returnNewAvail book) })
            ⟨none, none, some (returnNewAvail book), none⟩ st.books_by_author from rfl]
      exact alookup_aupdate_self_some _ _ hal

/-- Witness for C7: returning the single outstanding copy of a book with one
of two copies available stores `min(1 + 1, 2) = 2` in the by-id view. -/
theorem claim_C7_return_clamp_witness :
    min ((1 : Int) + 1) 2 ≤ 2 ∧
    alookup "X" (return_book dbSingle 7 "X" none).2.books_by_id =
      some ⟨some "Dune", some "Herbert", some "SF", some "Ace", some 1965, some 2, some (min ((1 : Int) + 1) 2), some ""⟩ :=
  ⟨(claim_C7_return_clamp dbSingle 7 "X" none
      ⟨some "Dune", some "Herbert", some "SF", some "Ace", some 1965, some 2, some 1, some ""⟩
      1 2 (by decide) (by decide) (by decide) (by decide)).1,
   (claim_C7_return_clamp dbSingle 7 "X" none
      ⟨some "Dune", some "Herbert", some "SF", some "Ace", some 1965, some 2, some 1, some ""⟩
      1 2 (by decide) (by decide) (by decide) (by decide)).2.1⟩

/-- C8 counterexample: starting from the healthy state `dbDemo`, patron 7
borrows `"X"` twice; then a first Return succeeds, and a second Return for the
same (patron, isbn), issued immediately afterwards with no intervening Borrow,
also succeeds (it consumes the second outstanding active row) instead of
failing with the no-active-loan result, refuting the claim as stated. -/
theorem claim_C8_counterexample :
    (return_book dbDouble 7 "X" none).1.ok = true ∧
    (return_book (return_book dbDouble 7 "X" none).2 7 "X" none).1 =
      ⟨true, "Livre retourné"⟩ := by decide

/-- C8 amended: when the patron holds exactly one active-loan row for the
isbn at the time of the first Return (the normal case; the engine does not
prevent borrowing the same isbn twice), a successful Return followed
immediately by a second Return for the same (patron, isbn) fails with the
no-active-loan failure and leaves the state unchanged. -/
theorem claim_C8_amended (st : DB) (u : Nat) (isbn : String) (w w' : Option Nat)
    (hone : isbnCount u isbn st.active_borrows_by_user = 1)
    (hok : (return_book st u isbn w).1.ok = true) :
    return_book (return_book st u isbn w).2 u isbn w' =
      (⟨false, "Aucun emprunt actif trouvé pour ce livre"⟩, (return_book st u isbn w).2) := by
  obtain ⟨m, book, user, hm, hb, hu, hcat, hti, hau, hw⟩ := return_book_ok_shape hok
  obtain ⟨hmem, hmu, hmi⟩ := findIsbn_activePartition_some hm
  rw [return_book_run hm hb hu hcat hti hau hw]
  have hk1 : 1 ≤ keyCount u m.borrow_date isbn st.active_borrows_by_user := by
    have := keyCount_pos_of_mem hmem
    rwa [hmu, hmi] at this
  have hk2 := keyCount_le_isbnCount u m.borrow_date isbn st.active_borrows_by_user
  have hsub := isbnCount_delActive_self u m.borrow_date isbn st.active_borrows_by_user
  have hzero : isbnCount u isbn (delActive u m.borrow_date isbn st.active_borrows_by_user) = 0 := by
    omega
  have hfind : findIsbn isbn
      (activePartition u ((returnFinal st u isbn m book user).active_borrows_by_user)) = none := by
    simp only [returnFinal]
    exact findIsbn_activePartition_none_iff.mpr hzero
  show return_book (returnFinal st u isbn m book user) u isbn w' = _
  simp only [return_book, hfind]

/-- Witness for C8 amended: after a single borrow, the first return succeeds
and the immediate second return fails with the no-active-loan message. -/
theorem claim_C8_amended_witness :
    return_book (return_book dbSingle 7 "X" none).2 7 "X" none =
      (⟨false, "Aucun emprunt actif trouvé pour ce livre"⟩, (return_book dbSingle 7 "X" none).2) :=
  claim_C8_amended dbSingle 7 "X" none none (by decide) (by decide)

/-- C1 counterexample: in `dbDupEmail` the email-lookup table already holds a
row for `"e@x.com"`, yet `create_user` succeeds and returns the fresh patron
id 5 (no duplicate-email check exists), refuting the claim as stated. -/
theorem claim_C1_counterexample :
    (alookup "e@x.com" dbDupEmail.users_by_email).isSome = true ∧
    alookup 5 dbDupEmail.users_by_id = none ∧
    createdUid (create_user dbDupEmail "e@x.com" "Ann" "Lee" "" "" none) = some 5 := by
  decide

/-- C1 amended: `create_user` performs no duplicate-email check at all: in
every state, when no write statement fails it succeeds with the fresh patron
id and overwrites the email-lookup row so that it points at the new id. -/
theorem claim_C1_amended (st : DB) (email fn ln ph ad : String) :
    createdUid (create_user st email fn ln ph ad none) = some st.nextUid ∧
    (createdDB (create_user st email fn ln ph ad none)).map
      (fun s => alookup email s.users_by_email) =
      some (some ⟨some st.nextUid, some fn, some ln, some st.time⟩) := by
  constructor
  · simp [create_user, createdUid]
  · simp [create_user, createdDB, alookup_aupsert_self]

/-- C4 counterexample: a failure of either write statement of `create_user`
is re-raised to the caller instead of being converted to a result value,
refuting the claim as stated for the patron-creation write operation. -/
theorem claim_C4_counterexample :
    raisedError (create_user dbDemo "b@x.com" "Bob" "Mo" "" "" (some 0)) = true ∧
    raisedError (create_user dbDemo "b@x.com" "Bob" "Mo" "" "" (some 1)) = true := by
  decide

/-- C4 amended: `add_book` and the borrow/return write fan-out convert any
write-statement failure into a boolean/result failure, but `create_user` logs
and re-raises the exception to its caller. -/
theorem claim_C4_amended :
    (∀ st b i, i < 3 → (add_book st b (some i)).1 = false) ∧
    (∀ st u isbn d i, i < 7 → (borrow_book st u isbn d (some i)).1.ok = false) ∧
    (∀ st u isbn i, i < 7 → (return_book st u isbn (some i)).1.ok = false) ∧
    (∀ st email fn ln ph ad i, i < 2 →
      raisedError (create_user st email fn ln ph ad (some i)) = true) := by
  refine ⟨?_, ?_, ?_, ?_⟩
  · intro st b i hi
    interval_cases i <;> simp [add_book]
  · intro st u isbn d i hi
    by_contra hok
    rw [Bool.not_eq_false] at hok
    obtain ⟨-, -, -, -, -, -, -, -, -, -, hw⟩ := borrow_book_ok_shape hok
    exact hw i hi rfl
  · intro st u isbn i hi
    by_contra hok
    rw [Bool.not_eq_false] at hok
    obtain ⟨-, -, -, -, -, -, -, -, -, hw⟩ := return_book_ok_shape hok
    exact hw i hi rfl
  · intro st email fn ln ph ad i hi
    interval_cases i <;> simp [create_user, raisedError]

/-- Witness for C4 amended at concrete inputs: an injected failure in each
operation's first write statement. -/
theorem claim_C4_amended_witness :
    (add_book dbEmpty bookDemo (some 0)).1 = false ∧
    (borrow_book dbDemo 7 "X" 14 (some 0)).1.ok = false ∧
    (return_book dbSingle 7 "X" (some 0)).1.ok = false ∧
    raisedError (create_user dbEmpty "a@b" "A" "B" "" "" (some 0)) = true :=
  ⟨claim_C4_amended.1 dbEmpty bookDemo 0 (by decide),
   claim_C4_amended.2.1 dbDemo 7 "X" 14 0 (by decide),
   claim_C4_amended.2.2.1 dbSingle 7 "X" 0 (by decide),
   claim_C4_amended.2.2.2 dbEmpty "a@b" "A" "B" "" "" 0 (by decide)⟩

end LibrarySystem
